import Mathlib

/-!
Verification of the doctor-appointment multi-agent repository.

The development shallowly embeds the routing supervisor from `agent.py`
(`DoctorAppointmentAgent.supervisor_node`) and the slot-store tools from
`toolkit/toolkits.py` (`check_availability_by_doctor`,
`check_availability_by_specialization`, `set_appointment`,
`cancel_appointment`, `reschedule_appointment`), together with the
time-format conversion used by the information handler
(`convert_to_am_pm`) and the regular-expression time extraction used by
the booking handler (`booking_node`).

Python strings are modelled as Lean `String` (a list of characters);
the pandas data frame holding `data/doctor_availability.csv` is modelled
as a `List Slot`; reading and writing the CSV file is modelled as
threading that list through each operation.  A tool that never calls
`to_csv` returns its input list unchanged.  The distinct literal result
messages of each tool are modelled by an inductive result type with one
constructor per message template.
-/

/-! ### String helpers (Python `in`, `lower`, `split`) -/

/-- `listIsPre n h` : the list `n` is an initial segment of `h`
(used to model Python's substring test). -/
def listIsPre : List Char → List Char → Bool
  | [], _ => true
  | _ :: _, [] => false
  | a :: as, b :: bs => a == b && listIsPre as bs

/-- `listHasSub n h` : `n` occurs as a contiguous segment of `h`. -/
def listHasSub (needle : List Char) : List Char → Bool
  | [] => listIsPre needle []
  | l@(_ :: rest) => listIsPre needle l || listHasSub needle rest

/-- Python's `needle in hay` on strings. -/
def strContains (hay needle : String) : Bool :=
  listHasSub needle.data hay.data

/-- Python's `\s` character class. -/
def pyIsSpace (c : Char) : Bool :=
  c == ' ' || c == '\t' || c == '\n' || c == '\r' ||
    c == Char.ofNat 11 || c == Char.ofNat 12

/-- Python's `str.lower()`, character by character (all the text the
supervisor and the tools lower-case here is ASCII). -/
def pyLower (s : String) : String :=
  ⟨s.data.map Char.toLower⟩

/-- Python's `str.strip()`: drop whitespace from both ends. -/
def pyStrip (s : String) : String :=
  ⟨((s.data.dropWhile pyIsSpace).reverse.dropWhile pyIsSpace).reverse⟩

/-- Splitting a character list at every occurrence of `sep`
(Python's `str.split(sep)` for a one-character separator). -/
def splitOnChar (sep : Char) : List Char → List (List Char)
  | [] => [[]]
  | c :: rest =>
    if c == sep then [] :: splitOnChar sep rest
    else
      match splitOnChar sep rest with
      | [] => [[c]]
      | h :: t => (c :: h) :: t

/-- Python's `s.split(sep)` for a one-character separator. -/
def pySplit (s : String) (sep : Char) : List String :=
  (splitOnChar sep s.data).map fun l => (⟨l⟩ : String)

/-! ### Conversation state and supervisor (`agent.py`) -/

/-- One entry of `state['messages']`.  LangChain messages carry a
`content` string and an optional `name`; handler messages are appended
as `AIMessage(content=..., name='information_node' | 'booking_node')`
and user messages have no name (`name = none`). -/
structure Msg where
  name : Option String
  content : String
deriving DecidableEq, Repr

/-- The fields of `AgentState` that `supervisor_node` reads. -/
structure AgentState where
  messages : List Msg
  id_number : Nat
deriving Repr

/-- The three-way routing target: the `Literal["information_node",
"booking_node", "FINISH"]` of the `Router` model, with `FINISH`
standing for the terminal marker (`END`). -/
inductive Goto
  | information_node
  | booking_node
  | FINISH
deriving DecidableEq, Repr

/-- The structured output requested from the decision model
(`Router` in `agent.py`). -/
structure Router where
  next : Goto
  reasoning : String
deriving DecidableEq, Repr

/-- The observable outcome of one supervisor step: the `goto` target of
the returned `Command` together with the `current_reasoning` update. -/
structure Decision where
  goto : Goto
  reasoning : String
deriving DecidableEq, Repr

/-- `info_calls` in `supervisor_node`: the number of messages named
`information_node`. -/
def infoCalls (s : AgentState) : Nat :=
  (s.messages.filter (fun m => m.name == some "information_node")).length

/-- `booking_calls` in `supervisor_node`: the number of messages named
`booking_node`. -/
def bookingCalls (s : AgentState) : Nat :=
  (s.messages.filter (fun m => m.name == some "booking_node")).length

/-- `first_msg` in the fallback: the lowered content of
`state['messages'][0]`, or `""` when the list is empty. -/
def firstMsgLower (s : AgentState) : String :=
  match s.messages.head? with
  | some m => pyLower m.content
  | none => ""

/-- The body of the `except` block of `supervisor_node`: the
deterministic fallback applied when the structured-decision call
raises.  `info_calls`, `booking_calls`, `first_msg` and `last_msg` are
the values the surrounding function computed from the state. -/
def fallbackDecision (info_calls booking_calls : Nat) (first_msg : String)
    (last_msg : Msg) : Decision :=
  let last_content := pyLower last_msg.content
  let is_check_and_book :=
    strContains first_msg "check" && strContains first_msg "book"
  if last_msg.name == some "information_node" then
    if (strContains last_content "available" ||
          strContains last_content "slot") &&
        !(strContains last_content "no available" ||
          strContains last_content "not available") then
      ⟨.booking_node, "Fallback: availability confirmed, routing to booking"⟩
    else if strContains last_content "no available" ||
        strContains last_content "not available" then
      ⟨.FINISH, "Fallback: no availability found"⟩
    else if is_check_and_book && booking_calls == 0 then
      ⟨.booking_node, "Fallback: proceeding to booking as requested"⟩
    else
      ⟨.FINISH, "Fallback: information provided"⟩
  else if last_msg.name == some "booking_node" then
    ⟨.FINISH, "Fallback: booking complete"⟩
  else if info_calls == 0 && booking_calls == 0 then
    if strContains first_msg "check" ||
        strContains first_msg "available" then
      ⟨.information_node, "Fallback: checking availability first"⟩
    else if strContains first_msg "book" ||
        strContains first_msg "appointment" then
      ⟨.booking_node, "Fallback: direct booking request"⟩
    else
      ⟨.FINISH, "Fallback: unclear request"⟩
  else
    ⟨.FINISH, "Fallback: ending conversation"⟩

/-- `DoctorAppointmentAgent.supervisor_node`.  The primary structured
decision (`self.llm_model.with_structured_output(Router).invoke`) is
modelled by the parameter `llm`: `some r` when it returns a well-formed
`Router`, `none` when it raises (malformed output, call failure,
timeout), in which case control enters the `except` fallback.
`Except.error` models an exception escaping the function: the only such
point is the subscript `state['messages'][-1]`, evaluated (while
formatting the system prompt) before the `try` block whenever the
iteration cap has not fired, which raises `IndexError` on an empty
message list. -/
def supervisor_node (llm : Option Router) (s : AgentState) :
    Except String Decision :=
  if infoCalls s + bookingCalls s ≥ 6 then
    .ok ⟨.FINISH, "Maximum iterations reached"⟩
  else
    match s.messages.getLast? with
    | none => .error "IndexError: list index out of range"
    | some last_msg =>
      match llm with
      | some r => .ok ⟨r.next, r.reasoning⟩
      | none =>
        .ok (fallbackDecision (infoCalls s) (bookingCalls s)
          (firstMsgLower s) last_msg)

/-- The routing target of a supervisor step, when the step returned
normally. -/
def routeOf : Except String Decision → Option Goto
  | .ok d => some d.goto
  | .error _ => none

/-! ### Slot store (`toolkit/toolkits.py`) -/

/-- One row of `data/doctor_availability.csv`: a bookable slot. -/
structure Slot where
  date_slot : String
  doctor_name : String
  specialization : String
  is_available : Bool
  patient_to_attend : Option Nat
deriving DecidableEq, Repr

/-- Modelled from the spec: `IdentificationNumberModel` lives in
`data_models/models.py`, which is not among the sources; §6 of the spec
says the subject id "must be 7 or 8 digits". -/
def validId (n : Nat) : Bool :=
  1000000 ≤ n && n ≤ 99999999

/-- Modelled from the spec: `DateTimeModel` lives in
`data_models/models.py`, which is not among the sources; §6 of the spec
says mutation operations use "DD-MM-YYYY HH:MM" with 24-hour time and
any other format fails validation.  Validation accepts exactly that
shape and leaves the string unchanged. -/
def validDateTime (s : String) : Bool :=
  match s.data with
  | [d1, d2, '-', m1, m2, '-', y1, y2, y3, y4, ' ', h1, h2, ':', n1, n2] =>
      d1.isDigit && d2.isDigit && m1.isDigit && m2.isDigit &&
      y1.isDigit && y2.isDigit && y3.isDigit && y4.isDigit &&
      h1.isDigit && h2.isDigit && n1.isDigit && n2.isDigit
  | _ => false

/-- Modelled from the spec: `DateModel` lives in `data_models/models.py`,
which is not among the sources; §6 of the spec says availability queries
use "DD-MM-YYYY". -/
def validDate (s : String) : Bool :=
  match s.data with
  | [d1, d2, '-', m1, m2, '-', y1, y2, y3, y4] =>
      d1.isDigit && d2.isDigit && m1.isDigit && m2.isDigit &&
      y1.isDigit && y2.isDigit && y3.isDigit && y4.isDigit
  | _ => false

/-- The row filter of `set_appointment`'s `case` (and of
`reschedule_appointment`'s `available_for_desired_date`):
`date_slot == d`, `doctor_name == doc`, `is_available == True`. -/
def slotMatchesAvailable (d doc : String) (r : Slot) : Bool :=
  r.date_slot == d && r.doctor_name == doc && r.is_available

/-- The row filter of `set_appointment`'s `slot_exists` probe:
same (doctor, date-time) key, any availability. -/
def slotMatchesKey (d doc : String) (r : Slot) : Bool :=
  r.date_slot == d && r.doctor_name == doc

/-- The `df.loc[...] = [False, id]` update of `set_appointment`,
applied row by row. -/
def bookRow (d doc : String) (id : Nat) (r : Slot) : Slot :=
  if slotMatchesAvailable d doc r then
    { r with is_available := false, patient_to_attend := some id }
  else r

/-- The result messages of `set_appointment`, one constructor per
literal message template. -/
inductive SetResult
  | success
  | alreadyBooked
  | noSuchSlot
  | invalidInput
deriving DecidableEq, Repr

/-- `set_appointment(desired_date, id_number, doctor_name)` over the
slot store `df`.  Returns the reported result and the store after the
call (the store is written back only on the success branch). -/
def set_appointment (df : List Slot) (desired_date : String)
    (id_number : Nat) (doctor_name : String) : SetResult × List Slot :=
  if !(validDateTime desired_date && validId id_number) then
    (.invalidInput, df)
  else
    let case := df.filter (slotMatchesAvailable desired_date doctor_name)
    if case.length == 0 then
      let slot_exists := df.filter (slotMatchesKey desired_date doctor_name)
      if slot_exists.length == 0 then (.noSuchSlot, df)
      else (.alreadyBooked, df)
    else
      (.success, df.map (bookRow desired_date doctor_name id_number))

/-- The row filter of `cancel_appointment`'s `case_to_remove`:
`date_slot == d`, `patient_to_attend == id`, `doctor_name == doc`. -/
def cancelMatches (d : String) (id : Nat) (doc : String) (r : Slot) : Bool :=
  r.date_slot == d && r.patient_to_attend == some id && r.doctor_name == doc

/-- The `df.loc[...] = [True, None]` update of `cancel_appointment`,
applied row by row. -/
def freeRow (d : String) (id : Nat) (doc : String) (r : Slot) : Slot :=
  if cancelMatches d id doc r then
    { r with is_available := true, patient_to_attend := none }
  else r

/-- The result messages of `cancel_appointment`. -/
inductive CancelResult
  | success
  | notFound
  | invalidInput
deriving DecidableEq, Repr

/-- `cancel_appointment(date, id_number, doctor_name)` over the slot
store `df`.  The `pd.to_numeric` coercion of the `patient_to_attend`
column is the identity here because the column is already modelled as
`Option Nat`, and it is not persisted on the not-found branch (no
`to_csv` call there). -/
def cancel_appointment (df : List Slot) (date : String)
    (id_number : Nat) (doctor_name : String) : CancelResult × List Slot :=
  if !(validDateTime date && validId id_number) then
    (.invalidInput, df)
  else
    let case_to_remove := df.filter (cancelMatches date id_number doctor_name)
    if case_to_remove.length == 0 then (.notFound, df)
    else (.success, df.map (freeRow date id_number doctor_name))

/-- The result messages of `reschedule_appointment`.  `setFailed r`
stands for returning the failing `set_result` text verbatim. -/
inductive RescheduleResult
  | success
  | newSlotUnavailable
  | cancelNotFound
  | setFailed (r : SetResult)
  | invalidInput
deriving DecidableEq, Repr

/-- `reschedule_appointment(old_date, new_date, id_number, doctor_name)`.
The pre-check `available_for_desired_date` filters the store read before
any mutation; `"No appointment found" in cancel_result` recognises
exactly the not-found message of `cancel_appointment`; `"successfully
booked" in set_result` recognises exactly the success message of
`set_appointment`. -/
def reschedule_appointment (df : List Slot) (old_date new_date : String)
    (id_number : Nat) (doctor_name : String) : RescheduleResult × List Slot :=
  if !(validDateTime old_date && validDateTime new_date && validId id_number)
  then (.invalidInput, df)
  else
    let avail := df.filter (slotMatchesAvailable new_date doctor_name)
    if avail.length == 0 then (.newSlotUnavailable, df)
    else
      let cancelled := cancel_appointment df old_date id_number doctor_name
      if cancelled.fst == .notFound then (.cancelNotFound, cancelled.snd)
      else
        let booked :=
          set_appointment cancelled.snd new_date id_number doctor_name
        if booked.fst == .success then (.success, booked.snd)
        else (.setFailed booked.fst, booked.snd)

/-! ### Availability queries (`toolkit/toolkits.py`) -/

/-- The `valid_doctors` list of `check_availability_by_doctor`. -/
def valid_doctors : List String :=
  ["kevin anderson", "robert martinez", "susan davis", "daniel miller",
   "sarah wilson", "michael green", "lisa brown", "jane smith",
   "emily johnson", "john doe"]

/-- `df['date_slot'].str.split(' ').str[0]`: the date part of a
`"DD-MM-YYYY HH:MM"` slot. -/
def dateOnly (r : Slot) : String :=
  (pySplit r.date_slot ' ').getD 0 ""

/-- `df['date_slot'].str.split(' ').str[1]`: the time part of a
`"DD-MM-YYYY HH:MM"` slot (a slot string with no space yields the empty
string here, where pandas yields NaN; either value matches no further
filter). -/
def timeOnly (r : Slot) : String :=
  (pySplit r.date_slot ' ').getD 1 ""

/-- Python `int(s)` on a string of decimal digits (the only shape it
receives in `convert_to_am_pm`; on any other shape `int` raises). -/
def pyInt (s : String) : Nat :=
  s.data.foldl (fun a c => 10 * a + (c.toNat - '0'.toNat)) 0

/-- Python `f"{n:02d}"` for a natural number. -/
def pad2 (n : Nat) : String :=
  if n < 10 then "0" ++ Nat.repr n else Nat.repr n

/-- `convert_to_am_pm` (nested in `check_availability_by_specialization`):
renders a 24-hour `"HH:MM"` time as `"H:MM AM"` / `"H:MM PM"`, with
`hours % 12 or 12` sending 0 to 12. -/
def convert_to_am_pm (time_str : String) : String :=
  let parts := pySplit time_str ':'
  let hours := pyInt (parts.getD 0 "")
  let minutes := pyInt (parts.getD 1 "")
  let period := if hours < 12 then "AM" else "PM"
  let hours12 := if hours % 12 == 0 then 12 else hours % 12
  Nat.repr hours12 ++ ":" ++ pad2 minutes ++ " " ++ period

/-- The result messages of `check_availability_by_doctor`. -/
inductive DoctorQueryResult
  | invalidDoctorName (name : String)
  | invalidDateFormat
  | allSlotsBooked
  | notAvailable
  | availableSlots (times : List String)
deriving DecidableEq, Repr

/-- `check_availability_by_doctor(desired_date, doctor_name)` over the
slot store `df`.  The function only reads the store (it never calls
`to_csv`), so the returned store is the input store on every branch. -/
def check_availability_by_doctor (df : List Slot)
    (desired_date doctor_name : String) : DoctorQueryResult × List Slot :=
  let name := pyStrip (pyLower doctor_name)
  if !(valid_doctors.contains name) then (.invalidDoctorName name, df)
  else if !(validDate desired_date) then (.invalidDateFormat, df)
  else
    let rows := df.filter fun r =>
      dateOnly r == desired_date && r.doctor_name == name && r.is_available
    if rows.length == 0 then
      let all_slots := df.filter fun r =>
        dateOnly r == desired_date && r.doctor_name == name
      if all_slots.length > 0 then (.allSlotsBooked, df)
      else (.notAvailable, df)
    else (.availableSlots (rows.map timeOnly), df)

/-- The result messages of `check_availability_by_specialization`.
`availableDoctors` carries, per doctor, the AM/PM-rendered slot times. -/
inductive SpecQueryResult
  | invalidDateFormat
  | allSlotsBooked
  | noAppointments
  | availableDoctors (slots : List (String × List String))
deriving DecidableEq, Repr

/-- `groupby('doctor_name')['time_only'].apply(list)`: the time slots of
each doctor appearing among `rows`.  (pandas lists group keys in sorted
order; the order of the groups is immaterial to the claims below.) -/
def groupByDoctor (rows : List Slot) : List (String × List String) :=
  (rows.map (fun r => r.doctor_name)).eraseDups.map fun d =>
    (d, (rows.filter (fun r => r.doctor_name == d)).map timeOnly)

/-- `check_availability_by_specialization(desired_date, specialization)`
over the slot store `df`.  Only reads the store; never calls `to_csv`. -/
def check_availability_by_specialization (df : List Slot)
    (desired_date specialization : String) : SpecQueryResult × List Slot :=
  if !(validDate desired_date) then (.invalidDateFormat, df)
  else
    let filtered := df.filter fun r =>
      dateOnly r == desired_date && r.specialization == specialization &&
        r.is_available
    if filtered.length == 0 then
      let all_slots := df.filter fun r =>
        dateOnly r == desired_date && r.specialization == specialization
      if all_slots.length > 0 then (.allSlotsBooked, df)
      else (.noAppointments, df)
    else
      (.availableDoctors ((groupByDoctor filtered).map fun p =>
        (p.fst, p.snd.map convert_to_am_pm)), df)

/-! ### Booking-node time extraction (`agent.py`, `booking_node`)

The booking node scrapes the last information-node message with the
regular expression `(\d{1,2}):(\d{2})\s*(AM|PM)` (IGNORECASE) and
converts the captured 12-hour time back to 24-hour `"HH:MM"`.  The
matcher below implements exactly that pattern: leftmost match, greedy
one-or-two-digit hour with backtracking, two-digit minutes, any amount
of whitespace, and a case-insensitive AM/PM marker. -/

/-- Matches `:(\d{2})\s*(AM|PM)` (IGNORECASE) at the head of `l`,
returning the captured minute digits and the upper-cased period. -/
def matchAfterHour (l : List Char) : Option (String × String) :=
  match l with
  | ':' :: a :: b :: rest =>
    if a.isDigit && b.isDigit then
      match rest.dropWhile pyIsSpace with
      | p :: m :: _ =>
        if (p == 'A' || p == 'a' || p == 'P' || p == 'p') &&
            (m == 'M' || m == 'm') then
          some (⟨[a, b]⟩, ⟨[p.toUpper, 'M']⟩)
        else none
      | _ => none
    else none
  | _ => none

/-- Tries the whole pattern at the head of `l`: a greedy two-digit hour
first, then a one-digit hour on backtracking.  Returns captured
(hour digits, minute digits, period). -/
def tryMatchAt (l : List Char) : Option (String × String × String) :=
  match l with
  | c1 :: c2 :: rest =>
    if c1.isDigit && c2.isDigit then
      match matchAfterHour rest with
      | some (mn, p) => some (⟨[c1, c2]⟩, mn, p)
      | none =>
        match matchAfterHour (c2 :: rest) with
        | some (mn, p) => some (⟨[c1]⟩, mn, p)
        | none => none
    else if c1.isDigit then
      match matchAfterHour (c2 :: rest) with
      | some (mn, p) => some (⟨[c1]⟩, mn, p)
      | none => none
    else none
  | _ => none

/-- `re.search`: the leftmost position where the pattern matches. -/
def searchTime : List Char → Option (String × String × String)
  | [] => none
  | l@(_ :: rest) =>
    match tryMatchAt l with
    | some r => some r
    | none => searchTime rest

/-- The `extracted_time` computation of `booking_node` on an
availability text: regex search, then 12-hour → 24-hour conversion and
`f"{hour:02d}:{minute}"` formatting.  `none` models the empty
`extracted_time` left when the regex does not match. -/
def extractedTime (availability_info : String) : Option String :=
  match searchTime availability_info.data with
  | none => none
  | some (hs, mn, period) =>
    let hour := pyInt hs
    let hour :=
      if period == "PM" && hour != 12 then hour + 12
      else if period == "AM" && hour == 12 then 0
      else hour
    some (pad2 hour ++ ":" ++ mn)

/-! ### Helper lemmas -/

/-- A message counted by neither handler counter is not the last one of
a state whose corresponding counter is zero. -/
theorem name_ne_of_count_zero (s : AgentState) (last : Msg) (tag : String)
    (hl : s.messages.getLast? = some last)
    (hz : (s.messages.filter (fun m => m.name == some tag)).length = 0) :
    last.name ≠ some tag := by
  have hmem : last ∈ s.messages := List.mem_of_mem_getLast? hl
  have hnil : s.messages.filter (fun m => m.name == some tag) = [] :=
    List.length_eq_zero.mp hz
  have := List.filter_eq_nil_iff.mp hnil last hmem
  simpa using this

/-! ### C1 -/

/-- C1: whenever the number of messages tagged `information_node` plus
the number tagged `booking_node` is at least 6, the supervisor step
terminates the loop with rationale "Maximum iterations reached",
whatever the primary decision model would answer (`llm` is universally
quantified, so the decision model is not consulted) and whatever any
message contains. -/
theorem supervisor_iteration_cap (llm : Option Router) (s : AgentState)
    (h : 6 ≤ infoCalls s + bookingCalls s) :
    supervisor_node llm s = .ok ⟨.FINISH, "Maximum iterations reached"⟩ := by
  unfold supervisor_node
  simp [h]

/-- Witness for C1: six information-node messages, and a decision model
that would answer `booking_node`; the supervisor terminates anyway. -/
theorem supervisor_iteration_cap_witness :
    supervisor_node (some ⟨.booking_node, "keep going"⟩)
      ⟨[⟨some "information_node", "a"⟩, ⟨some "information_node", "b"⟩,
        ⟨some "information_node", "c"⟩, ⟨some "information_node", "d"⟩,
        ⟨some "information_node", "e"⟩, ⟨some "booking_node", "f"⟩],
        1000082⟩ =
    .ok ⟨.FINISH, "Maximum iterations reached"⟩ :=
  supervisor_iteration_cap _ _ (by decide)

/-! ### C2 -/

/-- C2: on any conversation state holding at least one message (every
reachable state holds the user's opening message; with no message at
all the subscript `state['messages'][-1]` in the prompt construction
raises before the structured-decision step is ever attempted), a
failure of the primary structured-decision step (`llm = none`) is
recovered inside the supervisor: the step still returns a routing
decision and never propagates the failure. -/
theorem supervisor_decision_failure_recovered (s : AgentState)
    (h : s.messages ≠ []) :
    ∃ d : Decision, supervisor_node none s = .ok d := by
  obtain ⟨last, hl⟩ : ∃ a, s.messages.getLast? = some a := by
    cases hx : s.messages.getLast? with
    | none => exact absurd (List.getLast?_eq_none_iff.mp hx) h
    | some a => exact ⟨a, rfl⟩
  unfold supervisor_node
  rw [hl]
  repeat' split
  all_goals first | exact ⟨_, rfl⟩ | simp_all

/-- Witness for C2: a one-message state; the failed decision step is
recovered with a concrete routing decision. -/
theorem supervisor_decision_failure_recovered_witness :
    ∃ d : Decision,
      supervisor_node none
        ⟨[⟨none, "Can you check availability of a dentist?"⟩], 1000082⟩ =
      .ok d :=
  supervisor_decision_failure_recovered _ (by decide)

/-! ### C3 -/

/-- C3: when neither handler has yet run (zero information-tagged and
zero booking-tagged messages) and the primary decision fails, the
fallback inspects the lowered first user message: a checking/
availability cue routes to information; failing that, a booking/
appointment cue routes to booking; with neither cue it terminates.  In
particular a first message containing both "check" and "book" routes to
information. -/
theorem supervisor_fallback_fresh_state (s : AgentState)
    (hne : s.messages ≠ [])
    (hinfo : infoCalls s = 0) (hbook : bookingCalls s = 0) :
    ((strContains (firstMsgLower s) "check" = true ∨
      strContains (firstMsgLower s) "available" = true) →
      routeOf (supervisor_node none s) = some .information_node) ∧
    (strContains (firstMsgLower s) "check" = false →
     strContains (firstMsgLower s) "available" = false →
     (strContains (firstMsgLower s) "book" = true ∨
      strContains (firstMsgLower s) "appointment" = true) →
      routeOf (supervisor_node none s) = some .booking_node) ∧
    (strContains (firstMsgLower s) "check" = false →
     strContains (firstMsgLower s) "available" = false →
     strContains (firstMsgLower s) "book" = false →
     strContains (firstMsgLower s) "appointment" = false →
      routeOf (supervisor_node none s) = some .FINISH) ∧
    (strContains (firstMsgLower s) "check" = true →
     strContains (firstMsgLower s) "book" = true →
      routeOf (supervisor_node none s) = some .information_node) := by
  obtain ⟨last, hl⟩ : ∃ a, s.messages.getLast? = some a := by
    cases hx : s.messages.getLast? with
    | none => exact absurd (List.getLast?_eq_none_iff.mp hx) hne
    | some a => exact ⟨a, rfl⟩
  have hn1 : last.name ≠ some "information_node" :=
    name_ne_of_count_zero s last _ hl hinfo
  have hn2 : last.name ≠ some "booking_node" :=
    name_ne_of_count_zero s last _ hl hbook
  have hstep : supervisor_node none s =
      .ok (fallbackDecision (infoCalls s) (bookingCalls s)
        (firstMsgLower s) last) := by
    unfold supervisor_node
    rw [hl]
    simp [hinfo, hbook]
  refine ⟨?_, ?_, ?_, ?_⟩
  · rintro (hc | hc) <;>
      simp [hstep, routeOf, fallbackDecision, hn1, hn2, hinfo, hbook, hc]
  · rintro hc ha (hb | hb) <;>
      simp [hstep, routeOf, fallbackDecision, hn1, hn2, hinfo, hbook,
        hc, ha, hb]
  · intro hc ha hb hap
    simp [hstep, routeOf, fallbackDecision, hn1, hn2, hinfo, hbook,
      hc, ha, hb, hap]
  · intro hc hb
    simp [hstep, routeOf, fallbackDecision, hn1, hn2, hinfo, hbook, hc]

/-- Witness for C3: a first user message containing both "check" and
"book"; the fallback routes to information. -/
theorem supervisor_fallback_fresh_state_witness :
    routeOf (supervisor_node none
      ⟨[⟨none, "Please CHECK availability and book an appointment"⟩],
        7654321⟩) = some .information_node :=
  (supervisor_fallback_fresh_state _ (by decide) (by decide)
    (by decide)).2.2.2 (by decide) (by decide)

/-! ### C4 -/

/-- C4: when the last message originates from the information handler
and the primary decision fails, the fallback routes on the lowered text
of that message: an availability-positive cue ("available" or "slot")
with no availability-negative cue ("no available" / "not available")
routes to booking; a negative cue terminates; with neither cue, it
routes to booking exactly when the original request asked to both check
and book and no booking has been attempted, and terminates otherwise. -/
theorem supervisor_fallback_after_information (s : AgentState) (last : Msg)
    (hl : s.messages.getLast? = some last)
    (hname : last.name = some "information_node")
    (hcap : infoCalls s + bookingCalls s < 6) :
    (((strContains (pyLower last.content) "available" = true ∨
       strContains (pyLower last.content) "slot" = true) ∧
      strContains (pyLower last.content) "no available" = false ∧
      strContains (pyLower last.content) "not available" = false) →
      routeOf (supervisor_node none s) = some .booking_node) ∧
    ((strContains (pyLower last.content) "no available" = true ∨
      strContains (pyLower last.content) "not available" = true) →
      routeOf (supervisor_node none s) = some .FINISH) ∧
    (strContains (pyLower last.content) "available" = false →
     strContains (pyLower last.content) "slot" = false →
     strContains (pyLower last.content) "no available" = false →
     strContains (pyLower last.content) "not available" = false →
     ((strContains (firstMsgLower s) "check" &&
       strContains (firstMsgLower s) "book") &&
      (bookingCalls s == 0)) = true →
      routeOf (supervisor_node none s) = some .booking_node) ∧
    (strContains (pyLower last.content) "available" = false →
     strContains (pyLower last.content) "slot" = false →
     strContains (pyLower last.content) "no available" = false →
     strContains (pyLower last.content) "not available" = false →
     ((strContains (firstMsgLower s) "check" &&
       strContains (firstMsgLower s) "book") &&
      (bookingCalls s == 0)) = false →
      routeOf (supervisor_node none s) = some .FINISH) := by
  have hstep : supervisor_node none s =
      .ok (fallbackDecision (infoCalls s) (bookingCalls s)
        (firstMsgLower s) last) := by
    unfold supervisor_node
    rw [hl]
    simp [Nat.not_le.mpr hcap]
  refine ⟨?_, ?_, ?_, ?_⟩
  · rintro ⟨(hp | hp), hn1, hn2⟩ <;>
      simp [hstep, routeOf, fallbackDecision, hname, hp, hn1, hn2]
  · rintro (hn | hn) <;>
      simp [hstep, routeOf, fallbackDecision, hname, hn]
  · intro ha hs hn1 hn2 hcb
    simp [hstep, routeOf, fallbackDecision, hname, ha, hs, hn1, hn2, hcb]
  · intro ha hs hn1 hn2 hcb
    simp [hstep, routeOf, fallbackDecision, hname, ha, hs, hn1, hn2, hcb]

/-- Witness for C4: an information-node message confirming an available
slot; the fallback routes to booking. -/
theorem supervisor_fallback_after_information_witness :
    routeOf (supervisor_node none
      ⟨[⟨none, "check and book a dentist"⟩,
        ⟨some "information_node", "Dr. John Doe has a slot at 8:00 PM"⟩],
        7654321⟩) = some .booking_node :=
  (supervisor_fallback_after_information _
      ⟨some "information_node", "Dr. John Doe has a slot at 8:00 PM"⟩
      (by decide) (by decide) (by decide)).1
    (by refine ⟨Or.inr ?_, ?_, ?_⟩ <;> decide)

/-! ### Slot-store helper lemmas -/

theorem filter_length_beq_zero_iff {α} (p : α → Bool) (l : List α) :
    ((l.filter p).length == 0) = true ↔ ∀ a ∈ l, p a = false := by
  simp [List.length_eq_zero, List.filter_eq_nil_iff]

theorem slotMatchesAvailable_key {d doc : String} {r : Slot}
    (h : slotMatchesAvailable d doc r = true) :
    slotMatchesKey d doc r = true := by
  unfold slotMatchesAvailable at h
  unfold slotMatchesKey
  simp only [Bool.and_eq_true] at h ⊢
  exact h.1

theorem cancelMatches_key {d doc : String} {id : Nat} {r : Slot}
    (h : cancelMatches d id doc r = true) :
    slotMatchesKey d doc r = true := by
  unfold cancelMatches at h
  unfold slotMatchesKey
  simp only [Bool.and_eq_true] at h ⊢
  exact ⟨h.1.1, h.2⟩

/-- A freshly booked row is no longer available under the same key. -/
theorem bookRow_not_available (d doc : String) (id : Nat) (r : Slot) :
    slotMatchesAvailable d doc (bookRow d doc id r) = false := by
  unfold bookRow
  by_cases h : slotMatchesAvailable d doc r = true
  · simp only [h, if_true]
    unfold slotMatchesAvailable
    simp
  · simp only [h, if_false, Bool.if_false_left]
    exact Bool.not_eq_true _ ▸ Bool.eq_false_iff.mpr h

/-- Booking a row does not change its (doctor, date-time) key. -/
theorem bookRow_key (d doc : String) (id : Nat) (r : Slot) :
    slotMatchesKey d doc (bookRow d doc id r) = slotMatchesKey d doc r := by
  unfold bookRow
  split <;> simp [slotMatchesKey]

/-- When some available row has the requested key, `set_appointment`
reports success and books the matching rows. -/
theorem set_success_of_avail (df : List Slot) (d : String) (id : Nat)
    (doc : String) (hd : validDateTime d = true) (hid : validId id = true)
    (hex : ∃ r ∈ df, slotMatchesAvailable d doc r = true) :
    set_appointment df d id doc = (.success, df.map (bookRow d doc id)) := by
  have h1 : ((df.filter (slotMatchesAvailable d doc)).length == 0) =
      false := by
    rw [Bool.eq_false_iff, ne_eq, filter_length_beq_zero_iff]
    intro hall
    obtain ⟨r, hr, hp⟩ := hex
    rw [hall r hr] at hp
    cases hp
  unfold set_appointment
  simp [hd, hid, h1]

/-- When some row matches (date, patient, doctor), `cancel_appointment`
reports success and frees the matching rows. -/
theorem cancel_success_of_match (df : List Slot) (d : String) (id : Nat)
    (doc : String) (hd : validDateTime d = true) (hid : validId id = true)
    (hex : ∃ r ∈ df, cancelMatches d id doc r = true) :
    cancel_appointment df d id doc =
      (.success, df.map (freeRow d id doc)) := by
  have h1 : ((df.filter (cancelMatches d id doc)).length == 0) = false := by
    rw [Bool.eq_false_iff, ne_eq, filter_length_beq_zero_iff]
    intro hall
    obtain ⟨r, hr, hp⟩ := hex
    rw [hall r hr] at hp
    cases hp
  unfold cancel_appointment
  simp [hd, hid, h1]

/-! ### C5 -/

/-- C5: `set_appointment` with valid inputs: if an available slot with
the requested (doctor, date-time) key exists, the call reports success
and the post-store books exactly the matching available rows (marking
them unavailable with the requested patient id, as `bookRow` states,
all other rows untouched), and repeating the same call on the
post-store reports already-booked without changing it; if the key
exists but no matching row is available, the call reports
already-booked and leaves the store unchanged; if no row has the key,
the call reports no-such-slot and leaves the store unchanged. -/
theorem set_appointment_spec (df : List Slot) (d : String) (id : Nat)
    (doc : String) (hd : validDateTime d = true) (hid : validId id = true) :
    ((∃ r ∈ df, slotMatchesAvailable d doc r = true) →
      set_appointment df d id doc =
        (.success, df.map (bookRow d doc id)) ∧
      set_appointment (df.map (bookRow d doc id)) d id doc =
        (.alreadyBooked, df.map (bookRow d doc id))) ∧
    ((∀ r ∈ df, slotMatchesAvailable d doc r = false) →
     (∃ r ∈ df, slotMatchesKey d doc r = true) →
      set_appointment df d id doc = (.alreadyBooked, df)) ∧
    ((∀ r ∈ df, slotMatchesKey d doc r = false) →
      set_appointment df d id doc = (.noSuchSlot, df)) := by
  refine ⟨?_, ?_, ?_⟩
  · intro hex
    have h1 : ((df.filter (slotMatchesAvailable d doc)).length == 0) =
        false := by
      rw [Bool.eq_false_iff]
      rw [ne_eq, filter_length_beq_zero_iff]
      intro hall
      obtain ⟨r, hr, hp⟩ := hex
      rw [hall r hr] at hp
      cases hp
    constructor
    · unfold set_appointment
      simp [hd, hid, h1]
    · have h2 : ∀ r ∈ df.map (bookRow d doc id),
          slotMatchesAvailable d doc r = false := by
        intro r hr
        obtain ⟨x, _, rfl⟩ := List.mem_map.mp hr
        exact bookRow_not_available d doc id x
      have h2' : (((df.map (bookRow d doc id)).filter
          (slotMatchesAvailable d doc)).length == 0) = true :=
        (filter_length_beq_zero_iff _ _).mpr h2
      have h3 : (((df.map (bookRow d doc id)).filter
          (slotMatchesKey d doc)).length == 0) = false := by
        rw [Bool.eq_false_iff]
        rw [ne_eq, filter_length_beq_zero_iff]
        intro hall
        obtain ⟨r, hr, hp⟩ := hex
        have hkey : slotMatchesKey d doc (bookRow d doc id r) = true := by
          rw [bookRow_key]
          exact slotMatchesAvailable_key hp
        rw [hall _ (List.mem_map.mpr ⟨r, hr, rfl⟩)] at hkey
        cases hkey
      unfold set_appointment
      simp [hd, hid, h2', h3]
  · intro hall hex
    have h1 : ((df.filter (slotMatchesAvailable d doc)).length == 0) =
        true := (filter_length_beq_zero_iff _ _).mpr hall
    have h2 : ((df.filter (slotMatchesKey d doc)).length == 0) = false := by
      rw [Bool.eq_false_iff]
      rw [ne_eq, filter_length_beq_zero_iff]
      intro hall2
      obtain ⟨r, hr, hp⟩ := hex
      rw [hall2 r hr] at hp
      cases hp
    unfold set_appointment
    simp [hd, hid, h1, h2]
  · intro hall
    have h1 : ((df.filter (slotMatchesAvailable d doc)).length == 0) =
        true := by
      rw [filter_length_beq_zero_iff]
      intro r hr
      by_cases h : slotMatchesAvailable d doc r = true
      · have hk := slotMatchesAvailable_key h
        rw [hall r hr] at hk
        cases hk
      · exact Bool.eq_false_iff.mpr h
    have h2 : ((df.filter (slotMatchesKey d doc)).length == 0) = true :=
      (filter_length_beq_zero_iff _ _).mpr hall
    unfold set_appointment
    simp [hd, hid, h1, h2]

/-- The seeded demonstration slot of the spec's §8 scenarios: doctor
"emily johnson", 08-08-2024 20:00, general dentist, available. -/
def demoSlot : Slot :=
  ⟨"08-08-2024 20:00", "emily johnson", "general_dentist", true, none⟩

/-- A one-row slot store holding `demoSlot`. -/
def demoStore : List Slot := [demoSlot]

/-- Witness for C5: booking the seeded available slot succeeds, and
booking it again reports already-booked. -/
theorem set_appointment_spec_witness :
    set_appointment demoStore "08-08-2024 20:00" 1000082 "emily johnson" =
      (.success,
        demoStore.map (bookRow "08-08-2024 20:00" "emily johnson" 1000082)) ∧
    set_appointment
        (demoStore.map (bookRow "08-08-2024 20:00" "emily johnson" 1000082))
        "08-08-2024 20:00" 1000082 "emily johnson" =
      (.alreadyBooked,
        demoStore.map (bookRow "08-08-2024 20:00" "emily johnson" 1000082)) :=
  (set_appointment_spec demoStore _ _ _ (by decide) (by decide)).1
    ⟨demoSlot, by decide, by decide⟩

/-! ### C6 -/

/-- C6: `cancel_appointment` with valid inputs: if some row has the
requested (doctor, date-time) key and is assigned to the requested
patient id, the call reports success and the post-store frees exactly
the matching rows (clearing the assignment and marking them available,
as `freeRow` states); in every other case — no such slot, slot assigned
to someone else, or slot unassigned — the call reports not-found and
the store is unchanged. -/
theorem cancel_appointment_spec (df : List Slot) (d : String) (id : Nat)
    (doc : String) (hd : validDateTime d = true) (hid : validId id = true) :
    ((∃ r ∈ df, cancelMatches d id doc r = true) →
      cancel_appointment df d id doc =
        (.success, df.map (freeRow d id doc))) ∧
    ((∀ r ∈ df, cancelMatches d id doc r = false) →
      cancel_appointment df d id doc = (.notFound, df)) := by
  constructor
  · exact cancel_success_of_match df d id doc hd hid
  · intro hall
    have h1 : ((df.filter (cancelMatches d id doc)).length == 0) = true :=
      (filter_length_beq_zero_iff _ _).mpr hall
    unfold cancel_appointment
    simp [hd, hid, h1]

/-- The seeded slot after it has been booked by patient 1000082. -/
def demoBookedSlot : Slot :=
  ⟨"08-08-2024 20:00", "emily johnson", "general_dentist", false,
    some 1000082⟩

/-- A one-row slot store holding `demoBookedSlot`. -/
def demoBookedStore : List Slot := [demoBookedSlot]

/-- Witness for C6: cancelling the booked seeded slot with the
assigned patient id succeeds and frees it. -/
theorem cancel_appointment_spec_witness :
    cancel_appointment demoBookedStore "08-08-2024 20:00" 1000082
        "emily johnson" =
      (.success, demoBookedStore.map
        (freeRow "08-08-2024 20:00" 1000082 "emily johnson")) :=
  (cancel_appointment_spec demoBookedStore _ _ _ (by decide) (by decide)).1
    ⟨demoBookedSlot, by decide, by decide⟩

/-! ### C8 -/

/-- C8: on a store whose rows with the requested (doctor, date-time)
key are available and unassigned (in particular, on a keyed store
containing that slot as available and unassigned), `set_appointment`
followed by `cancel_appointment` with the same doctor, date-time and
patient id succeeds in both steps and restores the store exactly. -/
theorem set_then_cancel_round_trip (df : List Slot) (d : String) (id : Nat)
    (doc : String) (hd : validDateTime d = true) (hid : validId id = true)
    (hkey : ∀ r ∈ df, slotMatchesKey d doc r = true →
      r.is_available = true ∧ r.patient_to_attend = none)
    (hex : ∃ r ∈ df, slotMatchesKey d doc r = true) :
    (set_appointment df d id doc).fst = .success ∧
    (cancel_appointment (set_appointment df d id doc).snd d id doc).fst =
      .success ∧
    (cancel_appointment (set_appointment df d id doc).snd d id doc).snd =
      df := by
  obtain ⟨r0, hr0, hk0⟩ := hex
  obtain ⟨ha0, hp0⟩ := hkey r0 hr0 hk0
  have hav0 : slotMatchesAvailable d doc r0 = true := by
    unfold slotMatchesAvailable
    unfold slotMatchesKey at hk0
    simp only [Bool.and_eq_true] at hk0 ⊢
    exact ⟨hk0, ha0⟩
  have hset : set_appointment df d id doc =
      (.success, df.map (bookRow d doc id)) :=
    set_success_of_avail df d id doc hd hid ⟨r0, hr0, hav0⟩
  have hbooked0 : cancelMatches d id doc (bookRow d doc id r0) = true := by
    unfold bookRow
    rw [if_pos hav0]
    unfold cancelMatches
    unfold slotMatchesKey at hk0
    simp only [Bool.and_eq_true] at hk0 ⊢
    exact ⟨⟨hk0.1, by simp⟩, hk0.2⟩
  have hcancel : cancel_appointment (df.map (bookRow d doc id)) d id doc =
      (.success, (df.map (bookRow d doc id)).map (freeRow d id doc)) :=
    cancel_success_of_match _ d id doc hd hid
      ⟨bookRow d doc id r0, List.mem_map.mpr ⟨r0, hr0, rfl⟩, hbooked0⟩
  have hpt : ∀ r ∈ df, freeRow d id doc (bookRow d doc id r) = r := by
    intro r hr
    by_cases hk : slotMatchesKey d doc r = true
    · obtain ⟨ha, hp⟩ := hkey r hr hk
      have hav : slotMatchesAvailable d doc r = true := by
        unfold slotMatchesAvailable
        unfold slotMatchesKey at hk
        simp only [Bool.and_eq_true] at hk ⊢
        exact ⟨hk, ha⟩
      have hbm : cancelMatches d id doc (bookRow d doc id r) = true := by
        unfold bookRow
        rw [if_pos hav]
        unfold cancelMatches
        unfold slotMatchesKey at hk
        simp only [Bool.and_eq_true] at hk ⊢
        exact ⟨⟨hk.1, by simp⟩, hk.2⟩
      unfold freeRow
      rw [if_pos hbm]
      unfold bookRow
      rw [if_pos hav]
      cases r
      simp_all
    · have hav : slotMatchesAvailable d doc r = false := by
        by_cases h : slotMatchesAvailable d doc r = true
        · exact absurd (slotMatchesAvailable_key h) hk
        · exact Bool.eq_false_iff.mpr h
      have hcm : cancelMatches d id doc r = false := by
        by_cases h : cancelMatches d id doc r = true
        · exact absurd (cancelMatches_key h) hk
        · exact Bool.eq_false_iff.mpr h
      unfold bookRow
      rw [if_neg (by simp [hav])]
      unfold freeRow
      rw [if_neg (by simp [hcm])]
  refine ⟨by rw [hset], ?_, ?_⟩
  · rw [hset]
    simp only [hcancel]
  · rw [hset]
    simp only [hcancel, List.map_map]
    calc df.map (freeRow d id doc ∘ bookRow d doc id)
        = df.map (fun r => r) := List.map_eq_map_iff.mpr (fun r hr => hpt r hr)
      _ = df := by simp

/-- Witness for C8: book then cancel the seeded available slot; the
store returns to its original state. -/
theorem set_then_cancel_round_trip_witness :
    (set_appointment demoStore "08-08-2024 20:00" 1000082
      "emily johnson").fst = .success ∧
    (cancel_appointment
      (set_appointment demoStore "08-08-2024 20:00" 1000082
        "emily johnson").snd
      "08-08-2024 20:00" 1000082 "emily johnson").fst = .success ∧
    (cancel_appointment
      (set_appointment demoStore "08-08-2024 20:00" 1000082
        "emily johnson").snd
      "08-08-2024 20:00" 1000082 "emily johnson").snd = demoStore :=
  set_then_cancel_round_trip demoStore _ _ _ (by decide) (by decide)
    (by decide) ⟨demoSlot, by decide, by decide⟩

/-! ### C7 -/

/-- What a successful `cancel_appointment` implies: valid inputs, a
non-empty match, and the freed store. -/
theorem cancel_eq_success_elim {df df1 : List Slot} {d : String}
    {id : Nat} {doc : String}
    (h : cancel_appointment df d id doc = (.success, df1)) :
    (validDateTime d && validId id) = true ∧
    ((df.filter (cancelMatches d id doc)).length == 0) = false ∧
    df1 = df.map (freeRow d id doc) := by
  unfold cancel_appointment at h
  split at h
  · exact absurd h (by simp)
  · dsimp only at h
    split at h
    · exact absurd h (by simp)
    · rename_i hv hf
      refine ⟨by simpa using hv, by simpa using hf, ?_⟩
      simpa using (Prod.ext_iff.mp h).2.symm

/-- What a successful `set_appointment` implies: valid inputs, a
non-empty available match, and the booked store. -/
theorem set_eq_success_elim {df df2 : List Slot} {d : String}
    {id : Nat} {doc : String}
    (h : set_appointment df d id doc = (.success, df2)) :
    (validDateTime d && validId id) = true ∧
    ((df.filter (slotMatchesAvailable d doc)).length == 0) = false ∧
    df2 = df.map (bookRow d doc id) := by
  unfold set_appointment at h
  split at h
  · exact absurd h (by simp)
  · dsimp only at h
    split at h
    · split at h
      · exact absurd h (by simp)
      · exact absurd h (by simp)
    · rename_i hv hf
      refine ⟨by simpa using hv, by simpa using hf, ?_⟩
      simpa using (Prod.ext_iff.mp h).2.symm

/-- C7 counterexample: on the empty store (with well-formed dates and
id), Cancel of the old slot fails with not-found, the Set of the new
slot is never attempted and the store is unchanged, yet the reschedule
call reports the new-slot-unavailable message — not the cancel failure,
contradicting the claim as stated. -/
theorem reschedule_cancel_failure_counterexample :
    (cancel_appointment ([] : List Slot) "08-08-2024 10:30" 1000082
      "john doe").fst = .notFound ∧
    reschedule_appointment ([] : List Slot) "08-08-2024 10:30"
      "09-08-2024 14:00" 1000082 "john doe" =
      (.newSlotUnavailable, []) ∧
    RescheduleResult.newSlotUnavailable ≠ RescheduleResult.cancelNotFound :=
  by decide

/-- C7 (amended): whenever Cancel(old) and then Set(new) both succeed,
reschedule produces the same final store state; reschedule first
pre-checks that the new slot is available in the current store, and
when the pre-check fails it reports new-slot-unavailable with the
store unchanged, attempting neither Cancel nor Set; when the pre-check
passes and Cancel(old) fails (not-found), the Set of the new slot is
never attempted, the store is unchanged, and the cancel failure is
reported. -/
theorem reschedule_spec (df df2 : List Slot) (old_date new_date : String)
    (id : Nat) (doc : String) :
    (∀ df1, cancel_appointment df old_date id doc = (.success, df1) →
      set_appointment df1 new_date id doc = (.success, df2) →
      (reschedule_appointment df old_date new_date id doc).snd = df2) ∧
    (validDateTime old_date = true → validDateTime new_date = true →
     validId id = true →
     (∃ r ∈ df, slotMatchesAvailable new_date doc r = true) →
     (cancel_appointment df old_date id doc).fst = .notFound →
      reschedule_appointment df old_date new_date id doc =
        (.cancelNotFound, df)) ∧
    (validDateTime old_date = true → validDateTime new_date = true →
     validId id = true →
     (∀ r ∈ df, slotMatchesAvailable new_date doc r = false) →
      reschedule_appointment df old_date new_date id doc =
        (.newSlotUnavailable, df)) := by
  refine ⟨?_, ?_, ?_⟩
  · intro df1 hc hs
    obtain ⟨hvc, hfc, hdf1⟩ := cancel_eq_success_elim hc
    obtain ⟨hvs, hfs, hdf2⟩ := set_eq_success_elim hs
    rw [Bool.and_eq_true] at hvc hvs
    by_cases hpre :
        ((df.filter (slotMatchesAvailable new_date doc)).length == 0) = true
    · -- the new slot is unavailable up front: reschedule refuses, and the
      -- cancel-then-set pair can only have succeeded by freeing and
      -- re-booking the very same rows, so both final stores equal `df`.
      have hall : ∀ r ∈ df, slotMatchesAvailable new_date doc r = false :=
        (filter_length_beq_zero_iff _ _).mp hpre
      have hex1 : ∃ r' ∈ df1, slotMatchesAvailable new_date doc r' = true := by
        by_contra hno
        push_neg at hno
        have : ((df1.filter (slotMatchesAvailable new_date doc)).length == 0)
            = true :=
          (filter_length_beq_zero_iff _ _).mpr
            (fun r hr => Bool.eq_false_iff.mpr (hno r hr))
        rw [this] at hfs
        cases hfs
      obtain ⟨r', hr', hm'⟩ := hex1
      rw [hdf1] at hr'
      obtain ⟨r, hr, rfl⟩ := List.mem_map.mp hr'
      have hcm : cancelMatches old_date id doc r = true := by
        by_cases h : cancelMatches old_date id doc r = true
        · exact h
        · exfalso
          have : freeRow old_date id doc r = r := by
            unfold freeRow
            rw [if_neg (by simp [Bool.eq_false_iff.mpr h])]
          rw [this] at hm'
          rw [hall r hr] at hm'
          cases hm'
      have hdates : old_date = new_date := by
        unfold freeRow at hm'
        rw [if_pos hcm] at hm'
        unfold slotMatchesAvailable at hm'
        unfold cancelMatches at hcm
        simp only [Bool.and_eq_true, beq_iff_eq] at hm' hcm
        rw [← hm'.1.1, hcm.1.1]
      have hpt : ∀ x ∈ df,
          bookRow new_date doc id (freeRow old_date id doc x) = x := by
        intro x hx
        by_cases hxm : cancelMatches old_date id doc x = true
        · have hfields := hxm
          unfold cancelMatches at hfields
          simp only [Bool.and_eq_true, beq_iff_eq] at hfields
          have hxavail : x.is_available = false := by
            by_cases hb : x.is_available = true
            · exfalso
              have : slotMatchesAvailable new_date doc x = true := by
                unfold slotMatchesAvailable
                simp only [Bool.and_eq_true, beq_iff_eq]
                exact ⟨⟨by rw [hfields.1.1, hdates], hfields.2⟩, hb⟩
              rw [hall x hx] at this
              cases this
            · exact Bool.eq_false_iff.mpr hb
          unfold freeRow
          rw [if_pos hxm]
          unfold bookRow
          rw [if_pos (by
            unfold slotMatchesAvailable
            simp only [Bool.and_eq_true, beq_iff_eq]
            exact ⟨⟨by simp [hfields.1.1, hdates], by simp [hfields.2]⟩,
              by simp⟩)]
          cases x
          simp_all
        · have hxm' : cancelMatches old_date id doc x = false :=
            Bool.eq_false_iff.mpr hxm
          unfold freeRow
          rw [if_neg (by simp [hxm'])]
          unfold bookRow
          rw [if_neg (by simp [hall x hx])]
      have hfinal : df2 = df := by
        rw [hdf2, hdf1, List.map_map]
        calc df.map (bookRow new_date doc id ∘ freeRow old_date id doc)
            = df.map (fun x => x) :=
              List.map_eq_map_iff.mpr (fun x hx => hpt x hx)
          _ = df := by simp
      unfold reschedule_appointment
      rw [if_neg (by simp [hvc.1, hvs.1, hvc.2])]
      rw [if_pos hpre]
      rw [hfinal]
    · unfold reschedule_appointment
      rw [if_neg (by simp [hvc.1, hvs.1, hvc.2])]
      rw [if_neg (by simp [hpre])]
      rw [hc]
      simp only [hs]
      rfl
  · intro ho hn hi hex hnf
    have hcancel : cancel_appointment df old_date id doc = (.notFound, df) := by
      unfold cancel_appointment
      unfold cancel_appointment at hnf
      split at hnf
      · exact absurd hnf (by simp)
      · rename_i hv
        rw [if_neg hv]
        dsimp only at hnf ⊢
        split at hnf
        · rename_i hf
          rw [if_pos hf]
        · exact absurd hnf (by simp)
    have hpre :
        ((df.filter (slotMatchesAvailable new_date doc)).length == 0) =
          false := by
      rw [Bool.eq_false_iff, ne_eq, filter_length_beq_zero_iff]
      intro hall
      obtain ⟨r, hr, hp⟩ := hex
      rw [hall r hr] at hp
      cases hp
    unfold reschedule_appointment
    rw [if_neg (by simp [ho, hn, hi])]
    rw [if_neg (by simp [hpre])]
    rw [hcancel]
    rfl
  · intro ho hn hi hall
    have hpre :
        ((df.filter (slotMatchesAvailable new_date doc)).length == 0) =
          true := (filter_length_beq_zero_iff _ _).mpr hall
    unfold reschedule_appointment
    rw [if_neg (by simp [ho, hn, hi])]
    rw [if_pos hpre]

/-- Witness for C7 (amended): the seeded store holds the new slot as
available, and cancelling a different old date finds nothing, so the
reschedule call aborts with the cancel failure and an unchanged
store. -/
theorem reschedule_spec_witness :
    reschedule_appointment demoStore "01-08-2024 10:00" "08-08-2024 20:00"
        1000082 "emily johnson" = (.cancelNotFound, demoStore) :=
  (reschedule_spec demoStore [] "01-08-2024 10:00" "08-08-2024 20:00"
      1000082 "emily johnson").2.1 (by decide) (by decide) (by decide)
    ⟨demoSlot, by decide, by decide⟩ (by decide)

/-! ### C9 -/

/-- C9: for every input — any date string, doctor name or
specialization — and every slot-store state, neither availability query
mutates the store: the store coming out of the call equals the store
going in, on every branch (invalid doctor name, invalid date format,
fully booked, no slots, and the success listing). -/
theorem availability_queries_do_not_mutate (df : List Slot)
    (desired_date doctor_name specialization : String) :
    (check_availability_by_doctor df desired_date doctor_name).snd = df ∧
    (check_availability_by_specialization df desired_date
      specialization).snd = df := by
  constructor
  · unfold check_availability_by_doctor
    dsimp only
    repeat' split
    all_goals rfl
  · unfold check_availability_by_specialization
    dsimp only
    repeat' split
    all_goals rfl

/-! ### C10 -/

/-- C10: for every 24-hour time HH:MM (0 ≤ HH ≤ 23, 0 ≤ MM ≤ 59),
rendering it to 12-hour AM/PM text with the information handler's
`convert_to_am_pm` and then re-extracting it with the booking handler's
regex-and-conversion yields the original HH:MM text; in particular hour
00 round-trips via "12:MM AM" and hour 12 via "12:MM PM". -/
theorem time_format_round_trip :
    ∀ h < 24, ∀ m < 60,
      extractedTime (convert_to_am_pm (pad2 h ++ ":" ++ pad2 m)) =
        some (pad2 h ++ ":" ++ pad2 m) := by decide

/-- Witness for C10: midnight 00:30 renders as "12:30 AM" and is
extracted back as "00:30". -/
theorem time_format_round_trip_witness :
    extractedTime (convert_to_am_pm (pad2 0 ++ ":" ++ pad2 30)) =
      some (pad2 0 ++ ":" ++ pad2 30) :=
  time_format_round_trip 0 (by decide) 30 (by decide)
